import Mathlib

/-!
Verification of the authentication-dispatcher middleware (src/lib/index.js)
and the session manager (src/lib/sessionmanager.js) against their
natural-language specification.

The JavaScript code is shallowly embedded: strategies are modelled by the
single action verb they invoke (the strategy contract requires exactly one),
the dispatcher and the session manager become pure functions that thread the
request/session/options state explicitly and record every observable side
effect (response writes, redirects, callback invocations, flash messages,
pipeline continuations) in an ordered effect list.  JavaScript truthiness of
the string- and number-valued fields the code branches on is modelled
explicitly (empty strings and 0 are falsy).
-/

namespace Passport

/-- JS truthiness of an optional string: `undefined` and `""` are falsy. -/
def strTruthy : Option String → Bool
  | none => false
  | some s => !s.isEmpty

/-- `a || d` for an optional string `a` and a string default `d`. -/
def jsStrOr : Option String → String → String
  | none, d => d
  | some s, d => if s.isEmpty then d else s

/-- A JS value as far as the dispatcher inspects one: either a string, or an
object of which only the `type` and `message` fields are ever read.  Used for
challenges (from `fail`) and for `info` (from `success`). -/
inductive JsVal where
  | str (s : String)
  | obj (type : Option String) (message : Option String)
deriving DecidableEq

/-- JS truthiness of a `JsVal`: `""` is falsy, every object is truthy. -/
def JsVal.truthy : JsVal → Bool
  | .str s => !s.isEmpty
  | .obj _ _ => true

/-- Reading `.type` off the value (strings have no such field). -/
def JsVal.typeField : JsVal → Option String
  | .str _ => none
  | .obj t _ => t

/-- Reading `.message` off the value (strings have no such field). -/
def JsVal.messageField : JsVal → Option String
  | .str _ => none
  | .obj _ m => m

/-- The value itself when it is a string (`typeof v === 'string'`). -/
def JsVal.asString : JsVal → Option String
  | .str s => some s
  | .obj _ _ => none

/-- `v || emptyObject`: the value when truthy, else an empty object.  Models
`failure.challenge || ` an empty object literal, and `info = info || ` one. -/
def effectiveVal : Option JsVal → JsVal
  | some x => if x.truthy then x else .obj none none
  | none => .obj none none

/-! ## Session manager (src/lib/sessionmanager.js) -/

/-- The passport substructure stored in the session: the `user` entry written
by login, plus whatever sibling entries other code keeps in the same record
(`rest`, modelled as an association list). -/
structure PassportSession where
  user : Option String := none
  rest : List (String × String) := []
deriving DecidableEq

/-- Request state as `logOut` sees it: `passport` models `req._passport`
(outer `Option`: whether `req._passport` exists; inner: whether
`req._passport.session` exists — the same record the session stores under the
configured key), and `sessionRest` models every part of the session outside
that record. -/
structure LogoutReq where
  passport : Option (Option PassportSession)
  sessionRest : List (String × String)
deriving DecidableEq

/-- `SessionManager.prototype.logOut`: deletes `req._passport.session.user`
when `req._passport && req._passport.session` holds, then runs `cb && cb()`.
The returned list records the invocations of the completion callback (when
one was given), each carrying the error it was passed (`none` = no error). -/
def logOut (req : LogoutReq) : LogoutReq × List (Option String) :=
  match req.passport with
  | some (some ps) =>
    ({ req with passport := some (some { ps with user := none }) }, [none])
  | _ => (req, [none])

/-- Result of the externally supplied identity serializer's single completion:
`serializeUser(user, req, cb)` calls `cb(err)` or `cb(null, obj)`. -/
inductive SerializeResult where
  | ok (obj : String)
  | err (msg : String)
deriving DecidableEq

/-- Request state as `logIn` sees it: `psession` models
`req._passport.session`, `hasSession` whether `req.session` exists,
`keyEntry` the record stored at the configured key of the session
(`req.session[self._key]`), and `sessionRest` the session entries under every
other key. -/
structure LoginReq where
  psession : Option PassportSession
  hasSession : Bool
  keyEntry : Option PassportSession
  sessionRest : List (String × String)
deriving DecidableEq

/-- `SessionManager.prototype.logIn`: runs the externally supplied serializer;
on error it completes with that error and touches nothing; on success it
creates `req._passport.session` if absent, writes the serialized form at its
`user` entry, creates `req.session` if absent and stores the record under the
configured key.  The returned list records the completion-callback
invocations with the error each carried. -/
def logIn (serializeUser : String → LoginReq → SerializeResult) (req : LoginReq)
    (user : String) : LoginReq × List (Option String) :=
  match serializeUser user req with
  | SerializeResult.err e => (req, [some e])
  | SerializeResult.ok obj =>
    let ps := match req.psession with
      | some ps => ps
      | none => {}
    let ps' := { ps with user := some obj }
    ({ psession := some ps', hasSession := true, keyEntry := some ps',
       sessionRest := req.sessionRest }, [none])

/-! ## Authentication dispatcher (src/lib/index.js, `authenticate`) -/

/-- The `successFlash` / `failureFlash` option in its three truthy-capable
shapes: boolean `true`, a string shorthand, or an object with optional
`type` and `message` fields. -/
inductive FlashOpt where
  | tt
  | str (s : String)
  | obj (type : Option String) (message : Option String)
deriving DecidableEq

/-- JS truthiness of a flash option value (`""` is falsy). -/
def FlashOpt.truthy : FlashOpt → Bool
  | .tt => true
  | .str s => !s.isEmpty
  | .obj _ _ => true

/-- The `successMessage` / `failureMessage` option: boolean `true` or a
string override. -/
inductive MsgOpt where
  | tt
  | str (s : String)
deriving DecidableEq

/-- JS truthiness of a message option value. -/
def MsgOpt.truthy : MsgOpt → Bool
  | .tt => true
  | .str s => !s.isEmpty

/-- A failure record pushed by `strategy.fail`:
`challenge` optional string-or-object, `status` optional number. -/
structure Failure where
  challenge : Option JsVal
  status : Option Nat
deriving DecidableEq

/-- The first argument a strategy passes to `fail`: absent, a number, or a
challenge value. -/
inductive FailArg where
  | undef
  | num (n : Nat)
  | val (c : JsVal)
deriving DecidableEq

/-- `strategy.fail(challenge, status)`: when the first argument is a number
it is reinterpreted as the status and the challenge becomes absent
(index.js lines 330-340). -/
def mkFailure : FailArg → Option Nat → Failure
  | .num n, _ => { challenge := none, status := some n }
  | .undef, st => { challenge := none, status := st }
  | .val c, st => { challenge := some c, status := st }

/-- A strategy, abstracted to the single action verb its `authenticate`
invocation performs on this request (the strategy contract requires exactly
one of the five). -/
inductive StrategyAction where
  | success (user : String) (info : Option JsVal)
  | fail (challenge : FailArg) (status : Option Nat)
  | redirect (url : String) (status : Option Nat)
  | pass
  | error (msg : String)
deriving DecidableEq

/-- One entry of the chain passed to `authenticate`: either a strategy
instance (already exposing the `authenticate` capability) or a name to be
resolved through the registry (`passport._strategy`). -/
inductive LayerRef where
  | inst (a : StrategyAction)
  | name (s : String)
deriving DecidableEq

/-- JS truthiness of a chain entry, for the `if (!layer)` check of
index.js line 211: an instance (an object) is truthy; a name is truthy
unless it is the empty string (the falsy entry representable here). -/
def LayerRef.truthy : LayerRef → Bool
  | .inst _ => true
  | .name s => !s.isEmpty

/-- Argument of a `next(...)` pipeline continuation: no error, an ordinary
error, or the `AuthenticationError(message, status)` built under
`failWithError`. -/
inductive NextArg where
  | ok
  | err (msg : String)
  | authError (msg : Option String) (status : Option Nat)
deriving DecidableEq

/-- Arguments of an application-callback invocation, in the shapes the code
uses: `callback(null, user, info)`, `callback(null, false, challenge,
status)` (single-strategy form), `callback(null, false, challenges,
statuses)` (multi form), or `callback(err)`. -/
inductive CbArgs where
  | success (user : String) (info : Option JsVal)
  | failedSingle (challenge : Option JsVal) (status : Option Nat)
  | failedMulti (challenges : List (Option JsVal)) (statuses : List (Option Nat))
  | err (msg : String)
deriving DecidableEq

/-- An observable side effect of one dispatch, in the order it happens. -/
inductive Effect where
  | flash (type : String) (msg : String)
  | pushMessage (msg : String)
  | assign (prop : String) (user : String)
  | logIn (user : String)
  | setAuthInfo (info : JsVal)
  | redirect (url : String)
  | setStatus (n : Nat)
  | setWWWAuthenticate (challenges : List String)
  | setLocation (url : String)
  | setContentLength (v : String)
  | endRes (body : Option String)
  | next (a : NextArg)
  | callbackCall (a : CbArgs)
  | crash
deriving DecidableEq

/-- The dispatch configuration (the recognized options of `authenticate`).
`authInfo` models `options.authInfo !== false`. -/
structure Options where
  session : Bool := true
  successRedirect : Option String := none
  successReturnToOrRedirect : Option String := none
  successMessage : Option MsgOpt := none
  successFlash : Option FlashOpt := none
  failureRedirect : Option String := none
  failureMessage : Option MsgOpt := none
  failureFlash : Option FlashOpt := none
  failWithError : Bool := false
  assignProperty : Option String := none
  authInfo : Bool := true
deriving DecidableEq

/-- The parts of `req.session` the dispatcher itself reads or writes:
the pending `returnTo` URL and the `messages` list. -/
structure Session where
  returnTo : Option String := none
  messages : List String := []
deriving DecidableEq

/-- Single completion of the external `passport.transformAuthInfo`
collaborator for this dispatch. -/
inductive TransformResult where
  | ok (info : JsVal)
  | err (msg : String)
deriving DecidableEq

/-- Completions of the external collaborators a successful authentication
consults: the error (if any) `req.logIn` reports, and the outcome of
`passport.transformAuthInfo`. -/
structure Ext where
  loginErr : Option String := none
  transform : TransformResult := TransformResult.ok (.obj none none)
deriving DecidableEq

/-- The `flash.type` field after the code's normalization: a string
shorthand was replaced by a fresh object with the default type, and an
object value had `flash.type = flash.type || dflt` applied. -/
def flashTypeField (dflt : String) : FlashOpt → Option String
  | .tt => none
  | .str _ => some dflt
  | .obj t _ => some (jsStrOr t dflt)

/-- The `flash.message` field after normalization. -/
def flashMessageField : FlashOpt → Option String
  | .tt => none
  | .str s => some s
  | .obj _ m => m

/-- The value the options field holds after the flash block ran:
`flash.type = flash.type || dflt` mutates an object-valued option in place;
boolean and string values are left untouched (the string case builds a fresh
object instead). -/
def flashAfterMutation (dflt : String) : FlashOpt → FlashOpt
  | .obj t m => .obj (some (jsStrOr t dflt)) m
  | f => f

/-- `flash.message || v.message || v`: the first truthy of the flash message
and the value's message field, else the raw value — which is then recorded
only when it is a string. -/
def selectFlashMsg (fMsg : Option String) (v : JsVal) : Option String :=
  if strTruthy fMsg then fMsg
  else if strTruthy v.messageField then v.messageField
  else v.asString

/-- The flash block shared by the failure and success paths (index.js lines
153-167 and 256-270): when the option is truthy, compute the effective type
and message, flash when the message is a string, and return the (possibly
mutated) option value to be stored back. -/
def runFlashBlock (dflt : String) (fo : Option FlashOpt) (v : JsVal) :
    List Effect × Option FlashOpt :=
  match fo with
  | none => ([], none)
  | some f =>
    if f.truthy then
      let ty := jsStrOr (flashTypeField dflt f) (jsStrOr v.typeField dflt)
      (match selectFlashMsg (flashMessageField f) v with
        | some m => [Effect.flash ty m]
        | none => [], some (flashAfterMutation dflt f))
    else ([], some f)

/-- `v.message || v`, recorded only when a string: the message a boolean
`failureMessage` / `successMessage` option resolves from the challenge or
info value. -/
def msgFromVal (v : JsVal) : Option String :=
  if strTruthy v.messageField then v.messageField else v.asString

/-- The message block shared by the failure and success paths (index.js
lines 168-177 and 271-280): a truthy option pushes the resolved message onto
`req.session.messages` when it is a string. -/
def runMessageBlock (mo : Option MsgOpt) (v : JsVal) (sess : Session) :
    List Effect × Session :=
  match mo with
  | none => ([], sess)
  | some m =>
    if m.truthy then
      match (match m with | MsgOpt.tt => msgFromVal v | MsgOpt.str s => some s) with
      | some s => ([Effect.pushMessage s], { sess with messages := sess.messages ++ [s] })
      | none => ([], sess)
    else ([], sess)

/-- The string-typed challenges across all failure records, in accumulation
order (`rchallenge` of index.js lines 187-194). -/
def stringChallenges (failures : List Failure) : List String :=
  failures.filterMap fun f =>
    match f.challenge with
    | some (JsVal.str s) => some s
    | _ => none

/-- JS truthiness of an optional status number (`undefined` and `0` falsy). -/
def statusTruthy : Option Nat → Bool
  | none => false
  | some n => n != 0

/-- The fold `rstatus = rstatus || status` over all failure records
(index.js line 190). -/
def rstatusFold (failures : List Failure) : Option Nat :=
  failures.foldl (fun acc f => if statusTruthy acc then acc else f.status) none

/-- `res.statusCode = rstatus || 401` (index.js line 196). -/
def responseStatus (failures : List Failure) : Nat :=
  match rstatusFold failures with
  | some n => if n = 0 then 401 else n
  | none => 401

/-- The slice of `http.STATUS_CODES` the embedding needs (an external
reason-phrase table). -/
def STATUS_CODES (n : Nat) : Option String :=
  if n = 302 then some "Found"
  else if n = 400 then some "Bad Request"
  else if n = 401 then some "Unauthorized"
  else if n = 403 then some "Forbidden"
  else if n = 404 then some "Not Found"
  else if n = 500 then some "Internal Server Error"
  else none

/-- The `allFailed` procedure (index.js lines 138-204), reached when the
chain is exhausted.  With a callback, hand the accumulated challenge(s) and
status(es) to it (the non-multi form reads `failures[0]` and crashes on an
empty accumulator, which no reachable dispatch produces).  Otherwise run the
flash and message blocks off the first failure, then either redirect to
`failureRedirect` or write the default response: first truthy status
(fallback 401), the WWW-Authenticate header when that status is 401 and a
string challenge exists, then either an `AuthenticationError` through `next`
(`failWithError`) or the reason phrase as body. -/
def allFailed (hasCallback multi : Bool) (options : Options) (sess : Session)
    (failures : List Failure) : List Effect × Options × Session :=
  if hasCallback then
    if !multi then
      match failures with
      | f :: _ => ([Effect.callbackCall (CbArgs.failedSingle f.challenge f.status)], options, sess)
      | [] => ([Effect.crash], options, sess)
    else
      ([Effect.callbackCall (CbArgs.failedMulti (failures.map (·.challenge))
          (failures.map (·.status)))], options, sess)
  else
    let challenge := effectiveVal ((failures.head?).bind (·.challenge))
    let fb := runFlashBlock "error" options.failureFlash challenge
    let options1 := { options with failureFlash := fb.2 }
    let mb := runMessageBlock options1.failureMessage challenge sess
    if strTruthy options1.failureRedirect then
      (fb.1 ++ mb.1 ++ [Effect.redirect (jsStrOr options1.failureRedirect "")],
       options1, mb.2)
    else
      let rchallenge := stringChallenges failures
      let code := responseStatus failures
      let headerEff := if code = 401 ∧ rchallenge ≠ [] then
          [Effect.setWWWAuthenticate rchallenge] else []
      let tailEff := if options1.failWithError then
          [Effect.next (NextArg.authError (STATUS_CODES code) (rstatusFold failures))]
        else [Effect.endRes (STATUS_CODES code)]
      (fb.1 ++ mb.1 ++ [Effect.setStatus code] ++ headerEff ++ tailEff,
       options1, mb.2)

/-- The `complete` continuation of a successful login (index.js lines
291-304): `successReturnToOrRedirect` prefers and consumes a truthy
`req.session.returnTo`; else `successRedirect`; else continue the
pipeline. -/
def complete (options : Options) (sess : Session) : List Effect × Session :=
  if strTruthy options.successReturnToOrRedirect then
    if strTruthy sess.returnTo then
      ([Effect.redirect (jsStrOr sess.returnTo "")], { sess with returnTo := none })
    else ([Effect.redirect (jsStrOr options.successReturnToOrRedirect "")], sess)
  else if strTruthy options.successRedirect then
    ([Effect.redirect (jsStrOr options.successRedirect "")], sess)
  else ([Effect.next NextArg.ok], sess)

/-- The no-callback `strategy.success` procedure (index.js lines 248-317):
flash and message blocks off `info`, then either `assignProperty` and
continue, or `req.logIn`; on login success, optionally transform the info
through the external collaborator and attach it, then `complete`. -/
def success (user : String) (info0 : Option JsVal) (options : Options)
    (sess : Session) (ext : Ext) : List Effect × Options × Session :=
  let info := effectiveVal info0
  let fb := runFlashBlock "success" options.successFlash info
  let options1 := { options with successFlash := fb.2 }
  let mb := runMessageBlock options1.successMessage info sess
  if strTruthy options1.assignProperty then
    (fb.1 ++ mb.1 ++ [Effect.assign (jsStrOr options1.assignProperty "") user,
      Effect.next NextArg.ok], options1, mb.2)
  else
    match ext.loginErr with
    | some e =>
      (fb.1 ++ mb.1 ++ [Effect.logIn user, Effect.next (NextArg.err e)], options1, mb.2)
    | none =>
      if options1.authInfo then
        match ext.transform with
        | TransformResult.err e =>
          (fb.1 ++ mb.1 ++ [Effect.logIn user, Effect.next (NextArg.err e)], options1, mb.2)
        | TransformResult.ok tinfo =>
          let ce := complete options1 mb.2
          (fb.1 ++ mb.1 ++ [Effect.logIn user, Effect.setAuthInfo tinfo] ++ ce.1,
           options1, ce.2)
      else
        let ce := complete options1 mb.2
        (fb.1 ++ mb.1 ++ [Effect.logIn user] ++ ce.1, options1, ce.2)

/-- `strategy.redirect` (index.js lines 353-369): status (default 302),
Location and zero Content-Length headers, end the response. -/
def strategyRedirect (url : String) (status : Option Nat) : List Effect :=
  [Effect.setStatus (if statusTruthy status then status.getD 302 else 302),
   Effect.setLocation url, Effect.setContentLength "0", Effect.endRes none]

/-- Resolving one chain entry (index.js lines 216-223): an instance is used
directly; a name goes through the registry and an unresolvable name is the
fatal unknown-strategy error. -/
def resolveLayer (registry : String → Option StrategyAction) :
    LayerRef → Except String StrategyAction
  | .inst a => .ok a
  | .name s =>
    match registry s with
    | some p => .ok p
    | none => .error ("Unknown authentication strategy \"" ++ s ++ "\"")

/-- The `attempt` loop (index.js lines 207-408): a missing or falsy layer
(`if (!layer)`, line 211 — chain exhausted, or a falsy entry such as the
empty-string name) runs `allFailed`; an unresolvable truthy name aborts
through `next`; otherwise the resolved strategy's single action is
interpreted — `success` delegates to the callback or the success procedure,
`fail` accumulates a failure record and recurses on the rest of the chain,
`redirect`/`pass`/`error` halt. -/
def attempt (hasCallback multi : Bool) (registry : String → Option StrategyAction)
    (options : Options) (sess : Session) (ext : Ext) :
    List LayerRef → List Failure → List Effect × Options × Session
  | [], failures => allFailed hasCallback multi options sess failures
  | layer :: rest, failures =>
    if layer.truthy then
      match resolveLayer registry layer with
      | Except.error e => ([Effect.next (NextArg.err e)], options, sess)
      | Except.ok a =>
        match a with
        | StrategyAction.success u i =>
          if hasCallback then ([Effect.callbackCall (CbArgs.success u i)], options, sess)
          else success u i options sess ext
        | StrategyAction.fail c st =>
          attempt hasCallback multi registry options sess ext rest
            (failures ++ [mkFailure c st])
        | StrategyAction.redirect url st => (strategyRedirect url st, options, sess)
        | StrategyAction.pass => ([Effect.next NextArg.ok], options, sess)
        | StrategyAction.error e =>
          if hasCallback then ([Effect.callbackCall (CbArgs.err e)], options, sess)
          else ([Effect.next (NextArg.err e)], options, sess)
    else allFailed hasCallback multi options sess failures

/-- One whole dispatch: the middleware handler returned by `authenticate`,
started at index 0 with an empty failure accumulator. -/
def dispatch (hasCallback multi : Bool) (registry : String → Option StrategyAction)
    (chain : List LayerRef) (options : Options) (sess : Session) (ext : Ext) :
    List Effect × Options × Session :=
  attempt hasCallback multi registry options sess ext chain []

/-- The status codes written on the response during a dispatch. -/
def statusWrites (es : List Effect) : List Nat :=
  es.filterMap fun e => match e with | Effect.setStatus n => some n | _ => none

/-- The WWW-Authenticate header writes during a dispatch. -/
def headerWrites (es : List Effect) : List (List String) :=
  es.filterMap fun e => match e with | Effect.setWWWAuthenticate l => some l | _ => none

/-- Effects that constitute a failure response write: a status code, a
WWW-Authenticate header, or ending the response with a body. -/
def Effect.isFailureWrite : Effect → Bool
  | Effect.setStatus _ => true
  | Effect.setWWWAuthenticate _ => true
  | Effect.endRes _ => true
  | _ => false

/-- A chain of instance strategies that each fail with the given
challenge/status arguments. -/
def failChain (specs : List (FailArg × Option Nat)) : List LayerRef :=
  specs.map fun p => LayerRef.inst (StrategyAction.fail p.1 p.2)

/-- The failure records such a chain accumulates. -/
def failuresOf (specs : List (FailArg × Option Nat)) : List Failure :=
  specs.map fun p => mkFailure p.1 p.2

/-- An empty registry, options, session and collaborator record for concrete
instances. -/
def emptyRegistry : String → Option StrategyAction := fun _ => none

def defaultOptions : Options := {}

def defaultSession : Session := {}

def defaultExt : Ext := {}

/-- How a dispatch may relate the options it ends with to the options it
began with: every field unchanged, except that an object-valued flash option
may have had its missing `type` defaulted in place. -/
def optionsFrame (o o' : Options) : Prop :=
  o'.session = o.session ∧
  o'.successRedirect = o.successRedirect ∧
  o'.successReturnToOrRedirect = o.successReturnToOrRedirect ∧
  o'.successMessage = o.successMessage ∧
  o'.failureRedirect = o.failureRedirect ∧
  o'.failureMessage = o.failureMessage ∧
  o'.failWithError = o.failWithError ∧
  o'.assignProperty = o.assignProperty ∧
  o'.authInfo = o.authInfo ∧
  (o'.failureFlash = o.failureFlash ∨
    o'.failureFlash = o.failureFlash.map (flashAfterMutation "error")) ∧
  (o'.successFlash = o.successFlash ∨
    o'.successFlash = o.successFlash.map (flashAfterMutation "success"))

/-! ## Helper lemmas -/

theorem runFlashBlock_mem (dflt : String) (fo : Option FlashOpt) (v : JsVal) :
    ∀ e ∈ (runFlashBlock dflt fo v).1, ∃ t m, e = Effect.flash t m := by
  intro e he
  unfold runFlashBlock at he
  rcases fo with _ | f
  · simp at he
  · dsimp only at he
    split at he
    · split at he
      · simp at he
        exact ⟨_, _, he⟩
      · simp at he
    · simp at he

theorem runMessageBlock_mem (mo : Option MsgOpt) (v : JsVal) (s : Session) :
    ∀ e ∈ (runMessageBlock mo v s).1, ∃ m, e = Effect.pushMessage m := by
  intro e he
  unfold runMessageBlock at he
  rcases mo with _ | m
  · simp at he
  · dsimp only at he
    split at he
    · split at he
      · simp at he
        exact ⟨_, he⟩
      · simp at he
    · simp at he

theorem complete_mem (o : Options) (s : Session) :
    ∀ e ∈ (complete o s).1,
      (∃ u, e = Effect.redirect u) ∨ e = Effect.next NextArg.ok := by
  intro e he
  unfold complete at he
  split at he
  · split at he
    · simp at he
      exact Or.inl ⟨_, he⟩
    · simp at he
      exact Or.inl ⟨_, he⟩
  · split at he
    · simp at he
      exact Or.inl ⟨_, he⟩
    · simp at he
      exact Or.inr he

theorem runFlashBlock_snd (dflt : String) (fo : Option FlashOpt) (v : JsVal) :
    (runFlashBlock dflt fo v).2 = fo ∨
      (runFlashBlock dflt fo v).2 = fo.map (flashAfterMutation dflt) := by
  unfold runFlashBlock
  rcases fo with _ | f
  · exact Or.inl rfl
  · dsimp only
    split
    · exact Or.inr rfl
    · exact Or.inl rfl

theorem statusWrites_runFlashBlock (dflt : String) (fo : Option FlashOpt) (v : JsVal) :
    statusWrites (runFlashBlock dflt fo v).1 = [] := by
  rw [statusWrites, List.filterMap_eq_nil_iff]
  intro e he
  obtain ⟨t, m, rfl⟩ := runFlashBlock_mem dflt fo v e he
  rfl

theorem headerWrites_runFlashBlock (dflt : String) (fo : Option FlashOpt) (v : JsVal) :
    headerWrites (runFlashBlock dflt fo v).1 = [] := by
  rw [headerWrites, List.filterMap_eq_nil_iff]
  intro e he
  obtain ⟨t, m, rfl⟩ := runFlashBlock_mem dflt fo v e he
  rfl

theorem statusWrites_runMessageBlock (mo : Option MsgOpt) (v : JsVal) (s : Session) :
    statusWrites (runMessageBlock mo v s).1 = [] := by
  rw [statusWrites, List.filterMap_eq_nil_iff]
  intro e he
  obtain ⟨m, rfl⟩ := runMessageBlock_mem mo v s e he
  rfl

theorem headerWrites_runMessageBlock (mo : Option MsgOpt) (v : JsVal) (s : Session) :
    headerWrites (runMessageBlock mo v s).1 = [] := by
  rw [headerWrites, List.filterMap_eq_nil_iff]
  intro e he
  obtain ⟨m, rfl⟩ := runMessageBlock_mem mo v s e he
  rfl

theorem attempt_failChain (specs : List (FailArg × Option Nat))
    (hasCb multi : Bool) (registry : String → Option StrategyAction)
    (o : Options) (s : Session) (ext : Ext) (rest : List LayerRef)
    (acc : List Failure) :
    attempt hasCb multi registry o s ext (failChain specs ++ rest) acc
      = attempt hasCb multi registry o s ext rest (acc ++ failuresOf specs) := by
  induction specs generalizing acc with
  | nil => simp [failChain, failuresOf]
  | cons p ps ih =>
    simp only [failChain, List.map_cons, List.cons_append, attempt, LayerRef.truthy, resolveLayer,
      List.append_eq]
    simp only [failChain] at ih
    rw [ih]
    simp [failuresOf]

theorem dispatch_failChain (specs : List (FailArg × Option Nat))
    (hasCb multi : Bool) (registry : String → Option StrategyAction)
    (o : Options) (s : Session) (ext : Ext) :
    dispatch hasCb multi registry (failChain specs) o s ext
      = allFailed hasCb multi o s (failuresOf specs) := by
  unfold dispatch
  have h := attempt_failChain specs hasCb multi registry o s ext [] []
  rw [List.append_nil] at h
  rw [h]
  simp [attempt]

theorem rstatusFold_absorb (fs : List Failure) (acc : Option Nat)
    (h : statusTruthy acc = true) :
    fs.foldl (fun a f => if statusTruthy a then a else f.status) acc = acc := by
  induction fs with
  | nil => rfl
  | cons f fs ih =>
    simp only [List.foldl_cons, h, if_true]
    exact ih

theorem rstatusFold_first (fs1 : List Failure) (f : Failure) (fs2 : List Failure)
    (h1 : ∀ g ∈ fs1, statusTruthy g.status = false)
    (h2 : statusTruthy f.status = true) :
    ∀ acc, statusTruthy acc = false →
      (fs1 ++ f :: fs2).foldl (fun a g => if statusTruthy a then a else g.status) acc
        = f.status := by
  induction fs1 with
  | nil =>
    intro acc hacc
    simp only [List.nil_append, List.foldl_cons, hacc, if_false]
    exact rstatusFold_absorb fs2 f.status h2
  | cons g gs ih =>
    intro acc hacc
    simp only [List.cons_append, List.foldl_cons, hacc, if_false]
    exact ih (fun x hx => h1 x (List.mem_cons_of_mem g hx)) g.status
      (h1 g (List.mem_cons_self g gs))

theorem rstatusFold_all_falsy (fs : List Failure)
    (h : ∀ g ∈ fs, statusTruthy g.status = false) :
    ∀ acc, statusTruthy acc = false →
      statusTruthy (fs.foldl (fun a g => if statusTruthy a then a else g.status) acc)
        = false := by
  induction fs with
  | nil => intro acc hacc; exact hacc
  | cons g gs ih =>
    intro acc hacc
    simp only [List.foldl_cons, hacc, if_false]
    exact ih (fun x hx => h x (List.mem_cons_of_mem g hx)) g.status
      (h g (List.mem_cons_self g gs))

theorem responseStatus_of_first (fs1 : List Failure) (f : Failure)
    (fs2 : List Failure) (n : Nat)
    (h1 : ∀ g ∈ fs1, statusTruthy g.status = false)
    (hn : f.status = some n) (hn0 : n ≠ 0) :
    responseStatus (fs1 ++ f :: fs2) = n := by
  have h2 : statusTruthy f.status = true := by
    rw [hn]
    simp [statusTruthy, hn0]
  unfold responseStatus rstatusFold
  rw [rstatusFold_first fs1 f fs2 h1 h2 none rfl, hn]
  simp [hn0]

theorem responseStatus_fallback (fs : List Failure)
    (h : ∀ g ∈ fs, statusTruthy g.status = false) :
    responseStatus fs = 401 := by
  have hfalsy : statusTruthy (rstatusFold fs) = false :=
    rstatusFold_all_falsy fs h none rfl
  unfold responseStatus
  revert hfalsy
  cases rstatusFold fs with
  | none => intro _; rfl
  | some n =>
    intro hfalsy
    simp only [statusTruthy, bne_eq_false_iff_eq] at hfalsy
    simp [hfalsy]

theorem statusWrites_append (a b : List Effect) :
    statusWrites (a ++ b) = statusWrites a ++ statusWrites b := by
  simp [statusWrites]

theorem headerWrites_append (a b : List Effect) :
    headerWrites (a ++ b) = headerWrites a ++ headerWrites b := by
  simp [headerWrites]

theorem allFailed_default_writes (multi : Bool) (o : Options) (s : Session)
    (fs : List Failure) (hred : strTruthy o.failureRedirect = false) :
    statusWrites (allFailed false multi o s fs).1 = [responseStatus fs] ∧
    headerWrites (allFailed false multi o s fs).1 =
      (if responseStatus fs = 401 ∧ stringChallenges fs ≠ [] then
        [stringChallenges fs] else []) := by
  unfold allFailed
  simp only [Bool.false_eq_true, if_false]
  dsimp only
  rw [if_neg (by rw [hred]; exact Bool.false_ne_true)]
  constructor
  · simp only [statusWrites_append, statusWrites_runFlashBlock,
      statusWrites_runMessageBlock, List.nil_append]
    split
    · split <;> simp [statusWrites]
    · split <;> simp [statusWrites]
  · simp only [headerWrites_append, headerWrites_runFlashBlock,
      headerWrites_runMessageBlock, List.nil_append]
    split
    · split <;> simp_all [headerWrites]
    · split <;> simp_all [headerWrites]

theorem success_carries_user (u : String) (i : Option JsVal) (o : Options)
    (s : Session) (ext : Ext) :
    Effect.logIn u ∈ (success u i o s ext).1 ∨
      ∃ p, Effect.assign p u ∈ (success u i o s ext).1 := by
  unfold success
  dsimp only
  split
  · exact Or.inr ⟨jsStrOr o.assignProperty "", by simp⟩
  · split
    · exact Or.inl (by simp)
    · split
      · split
        · exact Or.inl (by simp)
        · exact Or.inl (by simp)
      · exact Or.inl (by simp)

theorem success_no_failure_write (u : String) (i : Option JsVal) (o : Options)
    (s : Session) (ext : Ext) :
    ∀ e ∈ (success u i o s ext).1, e.isFailureWrite = false := by
  intro e he
  unfold success at he
  dsimp only at he
  split at he
  · rcases List.mem_append.mp he with h1 | h2
    · rcases List.mem_append.mp h1 with hf | hm
      · obtain ⟨t, m, rfl⟩ := runFlashBlock_mem _ _ _ _ hf; rfl
      · obtain ⟨m, rfl⟩ := runMessageBlock_mem _ _ _ _ hm; rfl
    · simp only [List.mem_cons, List.not_mem_nil, or_false] at h2
      rcases h2 with rfl | rfl <;> rfl
  · split at he
    · rcases List.mem_append.mp he with h1 | h2
      · rcases List.mem_append.mp h1 with hf | hm
        · obtain ⟨t, m, rfl⟩ := runFlashBlock_mem _ _ _ _ hf; rfl
        · obtain ⟨m, rfl⟩ := runMessageBlock_mem _ _ _ _ hm; rfl
      · simp only [List.mem_cons, List.not_mem_nil, or_false] at h2
        rcases h2 with rfl | rfl <;> rfl
    · split at he
      · split at he
        · rcases List.mem_append.mp he with h1 | h2
          · rcases List.mem_append.mp h1 with hf | hm
            · obtain ⟨t, m, rfl⟩ := runFlashBlock_mem _ _ _ _ hf; rfl
            · obtain ⟨m, rfl⟩ := runMessageBlock_mem _ _ _ _ hm; rfl
          · simp only [List.mem_cons, List.not_mem_nil, or_false] at h2
            rcases h2 with rfl | rfl <;> rfl
        · rcases List.mem_append.mp he with h1 | hc
          · rcases List.mem_append.mp h1 with h2 | h3
            · rcases List.mem_append.mp h2 with hf | hm
              · obtain ⟨t, m, rfl⟩ := runFlashBlock_mem _ _ _ _ hf; rfl
              · obtain ⟨m, rfl⟩ := runMessageBlock_mem _ _ _ _ hm; rfl
            · simp only [List.mem_cons, List.not_mem_nil, or_false] at h3
              rcases h3 with rfl | rfl <;> rfl
          · rcases complete_mem _ _ _ hc with ⟨url, rfl⟩ | rfl <;> rfl
      · rcases List.mem_append.mp he with h1 | hc
        · rcases List.mem_append.mp h1 with h2 | h3
          · rcases List.mem_append.mp h2 with hf | hm
            · obtain ⟨t, m, rfl⟩ := runFlashBlock_mem _ _ _ _ hf; rfl
            · obtain ⟨m, rfl⟩ := runMessageBlock_mem _ _ _ _ hm; rfl
          · simp only [List.mem_cons, List.not_mem_nil, or_false] at h3
            rcases h3 with rfl
            rfl
        · rcases complete_mem _ _ _ hc with ⟨url, rfl⟩ | rfl <;> rfl

theorem optionsFrame_rfl (o : Options) : optionsFrame o o := by
  refine ⟨rfl, rfl, rfl, rfl, rfl, rfl, rfl, rfl, rfl, Or.inl rfl, Or.inl rfl⟩

theorem allFailed_optionsFrame (hasCb multi : Bool) (o : Options) (s : Session)
    (fs : List Failure) : optionsFrame o (allFailed hasCb multi o s fs).2.1 := by
  unfold allFailed
  split
  · split
    · split <;> exact optionsFrame_rfl o
    · exact optionsFrame_rfl o
  · dsimp only
    split
    · refine ⟨rfl, rfl, rfl, rfl, rfl, rfl, rfl, rfl, rfl, ?_, Or.inl rfl⟩
      exact runFlashBlock_snd "error" o.failureFlash _
    · refine ⟨rfl, rfl, rfl, rfl, rfl, rfl, rfl, rfl, rfl, ?_, Or.inl rfl⟩
      exact runFlashBlock_snd "error" o.failureFlash _

theorem success_optionsFrame (u : String) (i : Option JsVal) (o : Options)
    (s : Session) (ext : Ext) :
    optionsFrame o (success u i o s ext).2.1 := by
  unfold success
  dsimp only
  have hsf := runFlashBlock_snd "success" o.successFlash (effectiveVal i)
  split
  · exact ⟨rfl, rfl, rfl, rfl, rfl, rfl, rfl, rfl, rfl, Or.inl rfl, hsf⟩
  · split
    · exact ⟨rfl, rfl, rfl, rfl, rfl, rfl, rfl, rfl, rfl, Or.inl rfl, hsf⟩
    · split
      · split
        · exact ⟨rfl, rfl, rfl, rfl, rfl, rfl, rfl, rfl, rfl, Or.inl rfl, hsf⟩
        · exact ⟨rfl, rfl, rfl, rfl, rfl, rfl, rfl, rfl, rfl, Or.inl rfl, hsf⟩
      · exact ⟨rfl, rfl, rfl, rfl, rfl, rfl, rfl, rfl, rfl, Or.inl rfl, hsf⟩

theorem attempt_optionsFrame (hasCb multi : Bool)
    (registry : String → Option StrategyAction) (o : Options) (s : Session)
    (ext : Ext) (chain : List LayerRef) (acc : List Failure) :
    optionsFrame o (attempt hasCb multi registry o s ext chain acc).2.1 := by
  induction chain generalizing acc with
  | nil => exact allFailed_optionsFrame hasCb multi o s acc
  | cons layer rest ih =>
    rw [show attempt hasCb multi registry o s ext (layer :: rest) acc =
      (if layer.truthy then
        match resolveLayer registry layer with
        | Except.error e => ([Effect.next (NextArg.err e)], o, s)
        | Except.ok a =>
          match a with
          | StrategyAction.success u i =>
            if hasCb then ([Effect.callbackCall (CbArgs.success u i)], o, s)
            else success u i o s ext
          | StrategyAction.fail c st =>
            attempt hasCb multi registry o s ext rest (acc ++ [mkFailure c st])
          | StrategyAction.redirect url st => (strategyRedirect url st, o, s)
          | StrategyAction.pass => ([Effect.next NextArg.ok], o, s)
          | StrategyAction.error e =>
            if hasCb then ([Effect.callbackCall (CbArgs.err e)], o, s)
            else ([Effect.next (NextArg.err e)], o, s)
      else allFailed hasCb multi o s acc) from rfl]
    split
    · rcases resolveLayer registry layer with e | a
      · exact optionsFrame_rfl o
      · rcases a with ⟨u, i⟩ | ⟨c, st⟩ | ⟨url, st⟩ | _ | e
        · dsimp only
          split
          · exact optionsFrame_rfl o
          · exact success_optionsFrame u i o s ext
        · exact ih (acc ++ [mkFailure c st])
        · exact optionsFrame_rfl o
        · exact optionsFrame_rfl o
        · dsimp only
          split
          · exact optionsFrame_rfl o
          · exact optionsFrame_rfl o
    · exact allFailed_optionsFrame hasCb multi o s acc

/-! ## Claims -/

/-- Claim C1: in a dispatch without a callback, a strategy calling `fail`
advances the dispatcher to the next strategy in listed order (recording the
failure), while a strategy calling `success` halts the chain (the remaining
strategies and the accumulated failures are irrelevant); in particular the
chain [A, B] with A failing ("basic", 401) and B succeeding with identity "U"
resolves exactly as the chain [B] alone: success carrying "U", and no failure
status, WWW-Authenticate header, or response body is ever written. -/
theorem claim1_fail_advances_success_halts :
    (∀ (multi : Bool) (registry : String → Option StrategyAction) (o : Options)
        (s : Session) (ext : Ext) (c : FailArg) (st : Option Nat)
        (rest : List LayerRef) (acc : List Failure),
      attempt false multi registry o s ext
          (LayerRef.inst (StrategyAction.fail c st) :: rest) acc
        = attempt false multi registry o s ext rest (acc ++ [mkFailure c st]))
    ∧ (∀ (multi : Bool) (registry : String → Option StrategyAction) (o : Options)
        (s : Session) (ext : Ext) (u : String) (i : Option JsVal)
        (rest rest' : List LayerRef) (acc acc' : List Failure),
      attempt false multi registry o s ext
          (LayerRef.inst (StrategyAction.success u i) :: rest) acc
        = attempt false multi registry o s ext
            (LayerRef.inst (StrategyAction.success u i) :: rest') acc')
    ∧ (∀ (multi : Bool) (registry : String → Option StrategyAction) (o : Options)
        (s : Session) (ext : Ext),
      dispatch false multi registry
          [LayerRef.inst (StrategyAction.fail (FailArg.val (JsVal.str "basic")) (some 401)),
           LayerRef.inst (StrategyAction.success "U" none)] o s ext
        = dispatch false multi registry
            [LayerRef.inst (StrategyAction.success "U" none)] o s ext
      ∧ (Effect.logIn "U"
            ∈ (dispatch false multi registry
                [LayerRef.inst (StrategyAction.fail (FailArg.val (JsVal.str "basic")) (some 401)),
                 LayerRef.inst (StrategyAction.success "U" none)] o s ext).1
          ∨ ∃ p, Effect.assign p "U"
            ∈ (dispatch false multi registry
                [LayerRef.inst (StrategyAction.fail (FailArg.val (JsVal.str "basic")) (some 401)),
                 LayerRef.inst (StrategyAction.success "U" none)] o s ext).1)
      ∧ ∀ e ∈ (dispatch false multi registry
                [LayerRef.inst (StrategyAction.fail (FailArg.val (JsVal.str "basic")) (some 401)),
                 LayerRef.inst (StrategyAction.success "U" none)] o s ext).1,
          Effect.isFailureWrite e = false) := by
  refine ⟨?_, ?_, ?_⟩
  · intro multi registry o s ext c st rest acc
    simp [attempt, LayerRef.truthy, resolveLayer]
  · intro multi registry o s ext u i rest rest' acc acc'
    simp [attempt, LayerRef.truthy, resolveLayer]
  · intro multi registry o s ext
    have hval : dispatch false multi registry
        [LayerRef.inst (StrategyAction.fail (FailArg.val (JsVal.str "basic")) (some 401)),
         LayerRef.inst (StrategyAction.success "U" none)] o s ext
        = success "U" none o s ext := by
      simp [dispatch, attempt, LayerRef.truthy, resolveLayer]
    have hval' : dispatch false multi registry
        [LayerRef.inst (StrategyAction.success "U" none)] o s ext
        = success "U" none o s ext := by
      simp [dispatch, attempt, LayerRef.truthy, resolveLayer]
    refine ⟨hval.trans hval'.symm, ?_, ?_⟩
    · rw [hval]
      exact success_carries_user "U" none o s ext
    · rw [hval]
      exact success_no_failure_write "U" none o s ext

/-- Witness for C1 at concrete inputs: the login effect produced by the
[fail, success] chain under the default configuration is not a failure
write. -/
theorem claim1_witness :
    Effect.isFailureWrite (Effect.logIn "U") = false :=
  (claim1_fail_advances_success_halts.2.2 true emptyRegistry defaultOptions
    defaultSession defaultExt).2.2 (Effect.logIn "U") (by decide)

/-- Claim C2: for a no-callback dispatch in which every strategy fails
and `failureRedirect` does not divert handling, exactly one status code is
written — the first truthy status across the accumulated failure records
(401 when no record carries one) — and the WWW-Authenticate header is
written (holding exactly the string-typed challenges in order) if and only
if that status is exactly 401 and at least one string challenge exists. -/
theorem claim2_default_status_and_header
    (specs : List (FailArg × Option Nat)) (multi : Bool)
    (registry : String → Option StrategyAction) (o : Options) (s : Session)
    (ext : Ext) (hred : strTruthy o.failureRedirect = false) :
    statusWrites (dispatch false multi registry (failChain specs) o s ext).1
      = [responseStatus (failuresOf specs)]
    ∧ headerWrites (dispatch false multi registry (failChain specs) o s ext).1
      = (if responseStatus (failuresOf specs) = 401 ∧
            stringChallenges (failuresOf specs) ≠ [] then
          [stringChallenges (failuresOf specs)] else [])
    ∧ ((∀ g ∈ failuresOf specs, g.status = none) →
        responseStatus (failuresOf specs) = 401)
    ∧ (∀ fs1 f fs2 n, failuresOf specs = fs1 ++ f :: fs2 →
        (∀ g ∈ fs1, statusTruthy g.status = false) → f.status = some n →
        n ≠ 0 → responseStatus (failuresOf specs) = n) := by
  rw [dispatch_failChain]
  obtain ⟨h1, h2⟩ := allFailed_default_writes multi o s (failuresOf specs) hred
  refine ⟨h1, h2, ?_, ?_⟩
  · intro hall
    refine responseStatus_fallback _ (fun g hg => ?_)
    rw [hall g hg]
    rfl
  · intro fs1 f fs2 n heq hfs1 hn hn0
    rw [heq]
    exact responseStatus_of_first fs1 f fs2 n hfs1 hn hn0

/-- Witness for C2 at a concrete chain of two failing strategies. -/
theorem claim2_witness :
    statusWrites (dispatch false true emptyRegistry
        (failChain [(FailArg.val (JsVal.str "basic"), some 401),
                    (FailArg.undef, none)])
        defaultOptions defaultSession defaultExt).1
      = [responseStatus (failuresOf [(FailArg.val (JsVal.str "basic"), some 401),
          (FailArg.undef, none)])] :=
  (claim2_default_status_and_header
    [(FailArg.val (JsVal.str "basic"), some 401), (FailArg.undef, none)]
    true emptyRegistry defaultOptions defaultSession defaultExt rfl).1

/-- Claim C3: for the chain [A, B] with A failing with the object challenge
(type "x", status 403) and B failing with ("bearer", 401), no callback and
no diverting options, the response status is 403 (the first truthy status
wins), and the challenge list collected for the WWW-Authenticate header
contains exactly the string challenges — "bearer" is included, the object
challenge is excluded.  (The header itself is not emitted, since the
status is 403 rather than 401, consistently with C2.) -/
theorem claim3_object_challenge_excluded :
    statusWrites (dispatch false true emptyRegistry
        (failChain [(FailArg.val (JsVal.obj (some "x") none), some 403),
                    (FailArg.val (JsVal.str "bearer"), some 401)])
        defaultOptions defaultSession defaultExt).1 = [403]
    ∧ stringChallenges (failuresOf
        [(FailArg.val (JsVal.obj (some "x") none), some 403),
         (FailArg.val (JsVal.str "bearer"), some 401)]) = ["bearer"]
    ∧ headerWrites (dispatch false true emptyRegistry
        (failChain [(FailArg.val (JsVal.obj (some "x") none), some 403),
                    (FailArg.val (JsVal.str "bearer"), some 401)])
        defaultOptions defaultSession defaultExt).1 = [] := by
  refine ⟨?_, ?_, ?_⟩ <;> rfl

/-- Claim C4: `fail(n)` with a numeric first argument is equivalent to
`fail(undefined, n)`: the recorded failure record has an absent challenge
and status `n`, and in both forms the dispatcher proceeds identically to
the next strategy. -/
theorem claim4_numeric_fail_overload :
    (∀ (n : Nat) (st : Option Nat),
      mkFailure (FailArg.num n) st = mkFailure FailArg.undef (some n))
    ∧ (∀ n : Nat,
      mkFailure (FailArg.num n) none = { challenge := none, status := some n })
    ∧ (∀ (hasCb multi : Bool) (registry : String → Option StrategyAction)
        (o : Options) (s : Session) (ext : Ext) (n : Nat) (st : Option Nat)
        (rest : List LayerRef) (acc : List Failure),
      attempt hasCb multi registry o s ext
          (LayerRef.inst (StrategyAction.fail (FailArg.num n) st) :: rest) acc
        = attempt hasCb multi registry o s ext
            (LayerRef.inst (StrategyAction.fail FailArg.undef (some n)) :: rest) acc) := by
  refine ⟨fun n st => rfl, fun n => rfl, ?_⟩
  intro hasCb multi registry o s ext n st rest acc
  simp [attempt, LayerRef.truthy, resolveLayer, mkFailure]

/-- Claim C5 counterexample: the empty-string name is a strategy name the
registry cannot resolve (`emptyRegistry "" = none`), yet reaching it does
not abort with the unknown-strategy error: the `if (!layer)` check of
index.js line 211 fires on the falsy entry first, so the all-failed
procedure runs on the accumulated failures (here writing the 403 status
from the preceding failure) and no error is surfaced. -/
theorem claim5_counterexample :
    emptyRegistry "" = none
    ∧ dispatch false true emptyRegistry
        (failChain [(FailArg.undef, some 403)] ++ LayerRef.name "" :: [])
        defaultOptions defaultSession defaultExt
      ≠ ([Effect.next (NextArg.err
          ("Unknown authentication strategy \"" ++ "" ++ "\""))],
         defaultOptions, defaultSession)
    ∧ statusWrites (dispatch false true emptyRegistry
        (failChain [(FailArg.undef, some 403)] ++ LayerRef.name "" :: [])
        defaultOptions defaultSession defaultExt).1 = [403] := by
  refine ⟨rfl, ?_, ?_⟩ <;> decide

/-- Claim C5 (amended): reaching a chain entry holding a truthy (non-empty)
name the registry cannot resolve aborts the whole dispatch at once with the
fatal unknown-strategy error surfaced to the pipeline: the effects are
exactly that one `next(error)` call — so no failure record is acted on, the
all-failed procedure never runs, no strategy after the unknown name is
attempted, and options and session are untouched.  (A falsy — empty-string —
entry instead terminates the chain through the all-failed procedure, per
index.js line 211.) -/
theorem claim5_unknown_strategy_aborts
    (specs : List (FailArg × Option Nat)) (nm : String) (post : List LayerRef)
    (hasCb multi : Bool) (registry : String → Option StrategyAction)
    (o : Options) (s : Session) (ext : Ext) (hnm : nm.isEmpty = false)
    (h : registry nm = none) :
    dispatch hasCb multi registry (failChain specs ++ LayerRef.name nm :: post)
        o s ext
      = ([Effect.next (NextArg.err
          ("Unknown authentication strategy \"" ++ nm ++ "\""))], o, s) := by
  unfold dispatch
  rw [attempt_failChain]
  simp [attempt, LayerRef.truthy, resolveLayer, hnm, h]

/-- Witness for C5: one failing strategy followed by an unregistered
non-empty name. -/
theorem claim5_witness :
    dispatch false true emptyRegistry
        (failChain [(FailArg.undef, none)] ++ LayerRef.name "oauth" :: [])
        defaultOptions defaultSession defaultExt
      = ([Effect.next (NextArg.err
          ("Unknown authentication strategy \"" ++ "oauth" ++ "\""))],
         defaultOptions, defaultSession) :=
  claim5_unknown_strategy_aborts [(FailArg.undef, none)] "oauth" [] false true
    emptyRegistry defaultOptions defaultSession defaultExt rfl rfl

/-- Claim C6 counterexample: with a callback supplied (multi form), a chain
of zero strategies does not resolve identically to a chain whose sole
strategy fails with no arguments — the callback receives empty challenge
and status lists in the first case but singleton lists holding an absent
challenge and status in the second. -/
theorem claim6_counterexample :
    dispatch true true emptyRegistry [] defaultOptions defaultSession defaultExt
      ≠ dispatch true true emptyRegistry
          [LayerRef.inst (StrategyAction.fail FailArg.undef none)]
          defaultOptions defaultSession defaultExt := by
  decide

/-- Claim C6 (amended): for every dispatch WITHOUT a callback, a chain of
zero strategies resolves identically to a chain whose sole strategy
immediately fails with no challenge and no status; the all-failed procedure
runs and, when `failureRedirect` does not divert it, the response status
written is 401. -/
theorem claim6_empty_chain_equivalence
    (multi : Bool) (registry : String → Option StrategyAction) (o : Options)
    (s : Session) (ext : Ext) :
    dispatch false multi registry [] o s ext
      = dispatch false multi registry
          [LayerRef.inst (StrategyAction.fail FailArg.undef none)] o s ext
    ∧ (strTruthy o.failureRedirect = false →
        statusWrites (dispatch false multi registry [] o s ext).1 = [401]) := by
  have key : allFailed false multi o s []
      = allFailed false multi o s [{ challenge := none, status := none }] := by
    unfold allFailed
    simp [effectiveVal, stringChallenges, rstatusFold, responseStatus, statusTruthy]
  constructor
  · simp only [dispatch, attempt, LayerRef.truthy, resolveLayer, mkFailure, List.nil_append]
    exact key
  · intro hred
    have h := (allFailed_default_writes multi o s [] hred).1
    simp only [dispatch, attempt]
    exact h

/-- Witness for C6 (amended) at the default configuration. -/
theorem claim6_witness :
    dispatch false true emptyRegistry [] defaultOptions defaultSession defaultExt
      = dispatch false true emptyRegistry
          [LayerRef.inst (StrategyAction.fail FailArg.undef none)]
          defaultOptions defaultSession defaultExt
    ∧ statusWrites (dispatch false true emptyRegistry [] defaultOptions
        defaultSession defaultExt).1 = [401] := by
  obtain ⟨h1, h2⟩ := claim6_empty_chain_equivalence true emptyRegistry
    defaultOptions defaultSession defaultExt
  exact ⟨h1, h2 rfl⟩

/-- Claim C7 counterexample: with `successRedirect` (not
`successReturnToOrRedirect`) configured and a pending `returnTo = "/dash"`,
the dispatcher redirects to the configured URL, not to "/dash", and leaves
`returnTo` in the session. -/
theorem claim7_counterexample :
    Effect.redirect "/dash"
        ∉ (dispatch false true emptyRegistry
            [LayerRef.inst (StrategyAction.success "U" none)]
            { defaultOptions with successRedirect := some "/home" }
            { returnTo := some "/dash", messages := [] } defaultExt).1
    ∧ (dispatch false true emptyRegistry
        [LayerRef.inst (StrategyAction.success "U" none)]
        { defaultOptions with successRedirect := some "/home" }
        { returnTo := some "/dash", messages := [] } defaultExt).2.2.returnTo
      = some "/dash"
    ∧ Effect.redirect "/home"
        ∈ (dispatch false true emptyRegistry
            [LayerRef.inst (StrategyAction.success "U" none)]
            { defaultOptions with successRedirect := some "/home" }
            { returnTo := some "/dash", messages := [] } defaultExt).1 := by
  refine ⟨?_, ?_, ?_⟩ <;> decide

/-- Claim C7 (amended): it is `successReturnToOrRedirect` whose successful
completion prefers a pending session `returnTo = "/dash"`: the dispatcher
redirects to "/dash" and deletes `returnTo` from the session; an identical
success without a pending `returnTo` redirects to the configured URL
instead. -/
theorem claim7_return_to_redirect (url user : String) (msgs : List String)
    (multi : Bool) (registry : String → Option StrategyAction) (ext : Ext)
    (ti : JsVal) (hurl : url ≠ "") (hlog : ext.loginErr = none)
    (htr : ext.transform = TransformResult.ok ti) :
    (Effect.redirect "/dash"
        ∈ (dispatch false multi registry
            [LayerRef.inst (StrategyAction.success user none)]
            { successReturnToOrRedirect := some url }
            { returnTo := some "/dash", messages := msgs } ext).1
      ∧ (dispatch false multi registry
            [LayerRef.inst (StrategyAction.success user none)]
            { successReturnToOrRedirect := some url }
            { returnTo := some "/dash", messages := msgs } ext).2.2.returnTo
          = none)
    ∧ (Effect.redirect url
        ∈ (dispatch false multi registry
            [LayerRef.inst (StrategyAction.success user none)]
            { successReturnToOrRedirect := some url }
            { returnTo := none, messages := msgs } ext).1
      ∧ (dispatch false multi registry
            [LayerRef.inst (StrategyAction.success user none)]
            { successReturnToOrRedirect := some url }
            { returnTo := none, messages := msgs } ext).2.2.returnTo
          = none) := by
  have hne : url.isEmpty = false := by
    rcases h : url.isEmpty with _ | _
    · rfl
    · exact absurd ((String.isEmpty_iff url).mp h) hurl
  have hd : "/dash".isEmpty = false := by decide
  simp [dispatch, attempt, LayerRef.truthy, resolveLayer, success, runFlashBlock, runMessageBlock,
    complete, strTruthy, effectiveVal, hlog, htr, hne, hd, jsStrOr]

/-- Witness for C7 (amended) at concrete inputs. -/
theorem claim7_witness :
    Effect.redirect "/dash"
      ∈ (dispatch false true emptyRegistry
          [LayerRef.inst (StrategyAction.success "u" none)]
          { successReturnToOrRedirect := some "/login" }
          { returnTo := some "/dash", messages := [] } defaultExt).1 :=
  ((claim7_return_to_redirect "/login" "u" [] true emptyRegistry defaultExt
    (JsVal.obj none none) (by decide) rfl rfl).1).1

/-- Claim C9 counterexample: an object-valued `failureFlash` option with no
`type` field is mutated in place during the all-failed procedure — its
`type` is set to "error" — so the dispatch configuration is not left
unchanged. -/
theorem claim9_counterexample :
    (dispatch false true emptyRegistry
        [LayerRef.inst (StrategyAction.fail FailArg.undef none)]
        { failureFlash := some (FlashOpt.obj none (some "m")) }
        defaultSession defaultExt).2.1
      ≠ { failureFlash := some (FlashOpt.obj none (some "m")) } := by
  decide

/-- Claim C9 (amended): a dispatch never mutates any option except that an
object-valued `failureFlash` (resp. `successFlash`) may have its missing
`type` field defaulted to "error" (resp. "success") in place by the flash
block; every other field holds exactly its initial value afterwards. -/
theorem claim9_options_read_only
    (hasCb multi : Bool) (registry : String → Option StrategyAction)
    (chain : List LayerRef) (o : Options) (s : Session) (ext : Ext) :
    optionsFrame o (dispatch hasCb multi registry chain o s ext).2.1 :=
  attempt_optionsFrame hasCb multi registry o s ext chain []

/-- Claim C8: logout removes the `user` entry of the session's passport
substructure while leaving the substructure's other entries and the rest of
the session unchanged; the completion callback is always invoked exactly
once, never with an error; and a second logout changes nothing and still
never errors. -/
theorem claim8_logout_frame :
    (∀ (ps : PassportSession) (sr : List (String × String)),
      logOut ⟨some (some ps), sr⟩ =
        (⟨some (some { user := none, rest := ps.rest }), sr⟩, [none]))
    ∧ (∀ r : LogoutReq, (logOut r).1.sessionRest = r.sessionRest)
    ∧ (∀ r : LogoutReq, (logOut r).2 = [none])
    ∧ (∀ r : LogoutReq, logOut (logOut r).1 = ((logOut r).1, [none])) := by
  refine ⟨fun ps sr => rfl, fun r => ?_, fun r => ?_, fun r => ?_⟩
  · unfold logOut
    rcases r with ⟨p, sr⟩
    rcases p with _ | p
    · rfl
    · rcases p with _ | ps <;> rfl
  · unfold logOut
    rcases r with ⟨p, sr⟩
    rcases p with _ | p
    · rfl
    · rcases p with _ | ps <;> rfl
  · rcases r with ⟨p, sr⟩
    rcases p with _ | p
    · rfl
    · rcases p with _ | ps <;> rfl

/-- Claim C10: when the identity serializer completes with an error, `logIn`
invokes its completion callback exactly once with that error and leaves the
whole request/session state unchanged: no passport session substructure is
created, no `user` entry is written, and the session and its record under the
configured key are untouched. -/
theorem claim10_login_serializer_error
    (serializeUser : String → LoginReq → SerializeResult) (req : LoginReq)
    (user : String) (e : String)
    (h : serializeUser user req = SerializeResult.err e) :
    logIn serializeUser req user = (req, [some e]) := by
  unfold logIn
  rw [h]

/-- Witness for C10 at a concrete erroring serializer and request. -/
theorem claim10_witness :
    logIn (fun _ _ => SerializeResult.err "boom")
        ⟨none, false, none, [("csrf", "tok")]⟩ "alice" =
      (⟨none, false, none, [("csrf", "tok")]⟩, [some "boom"]) :=
  claim10_login_serializer_error (fun _ _ => SerializeResult.err "boom")
    ⟨none, false, none, [("csrf", "tok")]⟩ "alice" "boom" rfl

end Passport
